import Mathlib

/-!
Verification of the WebTransport livestream relay server
(`samples/livestream/livestream_server.py`) against its specification.

The embedding models the active Python code:
* `LiveStream` — a channel: `stream_id`, an optional `publisher` slot and a
  `viewers` set (modelled as a duplicate-free list of handler session ids).
* `StreamManager` — the registry: a dict from channel name to channel.
  Python holds channel *objects*; to model object identity (a handler keeps
  a reference to the channel object it registered with, and mutates it in
  its `finally` block even after the registry entry may have changed) the
  registry maps names to object ids and a heap maps object ids to channel
  values.  The `asyncio.Lock` serialising registry mutations is modelled by
  the operations being atomic functions on the registry state.
* `Handler` — a `PublisherHandler`/`ViewerHandler`: role, channel name,
  session id and the `active` flag.  The router's `self.handlers` dict is
  an association list from session id to handler.
* Transport sends that raise are modelled by a `fails` environment: the set
  of viewer session ids whose `http.send_datagram` raises.  The `except`
  clause in `ViewerHandler.send_datagram` and `return_exceptions=True` in
  `asyncio.gather` make every operation total, which is why the Lean
  functions are total and return no error component.

Strings coming off the wire (method, protocol designator, path, channel
name) are modelled as `List Char`, matching Python `str` as a sequence of
characters.
-/

set_option maxHeartbeats 1000000

abbrev Str := List Char

/-- Association-list lookup: `d.get(k)` on a Python dict (first matching key). -/
def alookup {κ β : Type} [DecidableEq κ] (k : κ) : List (κ × β) → Option β
  | [] => none
  | p :: r => if p.1 = k then some p.2 else alookup k r

/-- Association-list assignment: `d[k] = v` on a Python dict
(replace the entry if the key is present, else append). -/
def aset {κ β : Type} [DecidableEq κ] (k : κ) (v : β) : List (κ × β) → List (κ × β)
  | [] => [(k, v)]
  | p :: r => if p.1 = k then (k, v) :: r else p :: aset k v r

/-- In-place update of the value stored under a key (mutation of the object
reached through the dict); absent keys are untouched. -/
def aupd {κ β : Type} [DecidableEq κ] (k : κ) (f : β → β) : List (κ × β) → List (κ × β)
  | [] => []
  | p :: r => (if p.1 = k then (p.1, f p.2) else p) :: aupd k f r

/-- Association-list deletion: `del d[k]` on a Python dict. -/
def aerase {κ β : Type} [DecidableEq κ] (k : κ) : List (κ × β) → List (κ × β)
  | [] => []
  | p :: r => if p.1 = k then aerase k r else p :: aerase k r

theorem alookup_aupd_self {κ β : Type} [DecidableEq κ] (k : κ) (f : β → β)
    (l : List (κ × β)) : alookup k (aupd k f l) = (alookup k l).map f := by
  induction l with
  | nil => rfl
  | cons p r ih =>
    by_cases h : p.1 = k <;> simp [alookup, aupd, h, ih]

theorem alookup_aupd_ne {κ β : Type} [DecidableEq κ] {u k : κ} (f : β → β)
    (l : List (κ × β)) (h : u ≠ k) : alookup u (aupd k f l) = alookup u l := by
  induction l with
  | nil => rfl
  | cons p r ih =>
    by_cases hp : p.1 = k
    · simp [alookup, aupd, hp, ih, Ne.symm h]
    · by_cases hu : p.1 = u <;> simp [alookup, aupd, hp, hu, ih, h]

theorem aupd_aupd {κ β : Type} [DecidableEq κ] (k : κ) (f g : β → β)
    (l : List (κ × β)) : aupd k f (aupd k g l) = aupd k (fun b => f (g b)) l := by
  induction l with
  | nil => rfl
  | cons p r ih =>
    by_cases h : p.1 = k <;> simp [aupd, h, ih]

theorem alookup_aerase_self {κ β : Type} [DecidableEq κ] (k : κ)
    (l : List (κ × β)) : alookup k (aerase k l) = none := by
  induction l with
  | nil => rfl
  | cons p r ih =>
    by_cases h : p.1 = k <;> simp [alookup, aerase, h, ih]

/-- Role of a session handler (`PublisherHandler` vs `ViewerHandler`). -/
inductive HKind : Type
  | publisher
  | viewer
deriving DecidableEq

/-- A session handler object: role, channel name (`self.stream_id`),
transport-assigned session id (`self.session_id`) and the `active` flag.
The `http`/`protocol` back-references are the transport capability and are
represented by the `fails` environment at the points where they are used. -/
structure Handler where
  kind : HKind
  stream_id : Str
  session_id : Nat
  active : Bool
deriving DecidableEq

/-- The router's `self.handlers` dict: session id -> handler object. -/
abbrev HMap := List (Nat × Handler)

/-- A channel (`class LiveStream`): name, optional publisher slot holding the
publisher handler's session id, and the viewer set, modelled as a
duplicate-free list of viewer handler session ids. -/
structure LiveStream where
  stream_id : Str
  publisher : Option Nat
  viewers : List Nat
deriving DecidableEq

abbrev ObjId := Nat

/-- The registry (`class StreamManager`): `streams` is the Python dict from
channel name to channel object, split into a name -> object-id map plus a
heap of channel objects so that stale object references held by handlers
are modelled faithfully.  `nextId` allocates fresh object ids. -/
structure StreamManager where
  streams : List (Str × ObjId)
  heap : List (ObjId × LiveStream)
  nextId : ObjId
deriving DecidableEq

/-- Combined server state: the router's handler map and the registry. -/
structure World where
  handlers : HMap
  reg : StreamManager
deriving DecidableEq

/-- `LiveStream.set_publisher`: unconditionally store the handler in the
publisher slot (the source only logs a warning when a publisher was
already installed). -/
def set_publisher (h : Nat) (ls : LiveStream) : LiveStream :=
  { ls with publisher := some h }

/-- `LiveStream.add_viewer`: `self.viewers.add(handler)` — set insertion. -/
def add_viewer (h : Nat) (ls : LiveStream) : LiveStream :=
  if h ∈ ls.viewers then ls else { ls with viewers := ls.viewers ++ [h] }

/-- `LiveStream.remove_viewer`: `self.viewers.discard(handler)` — set removal,
a no-op on a non-member. -/
def remove_viewer (h : Nat) (ls : LiveStream) : LiveStream :=
  { ls with viewers := ls.viewers.erase h }

/-- `StreamManager.get_stream(stream_id, create)`: under the lock, create the
channel when absent and `create` is set, then return `streams.get(stream_id)`. -/
def get_stream (create : Bool) (name : Str) (r : StreamManager) :
    StreamManager × Option ObjId :=
  match alookup name r.streams with
  | some oid => (r, some oid)
  | none =>
    if create then
      ({ streams := r.streams ++ [(name, r.nextId)],
         heap := r.heap ++ [(r.nextId, { stream_id := name, publisher := none, viewers := [] })],
         nextId := r.nextId + 1 }, some r.nextId)
    else (r, none)

/-- `StreamManager.remove_stream_if_empty(stream_id)`: under the lock, delete
the registry entry iff the channel exists and has no publisher and no
viewers. -/
def remove_stream_if_empty (name : Str) (r : StreamManager) : StreamManager :=
  match (alookup name r.streams).bind (fun oid => alookup oid r.heap) with
  | none => r
  | some ls =>
    if ls.publisher = none ∧ ls.viewers = [] then
      { r with streams := aerase name r.streams }
    else r

theorem remove_stream_if_empty_heap (name : Str) (r : StreamManager) :
    (remove_stream_if_empty name r).heap = r.heap := by
  unfold remove_stream_if_empty
  split
  · rfl
  · split <;> rfl

theorem remove_stream_if_empty_idem (name : Str) (r : StreamManager) :
    remove_stream_if_empty name (remove_stream_if_empty name r) =
      remove_stream_if_empty name r := by
  cases h1 : (alookup name r.streams).bind (fun oid => alookup oid r.heap) with
  | none =>
    have e : remove_stream_if_empty name r = r := by
      unfold remove_stream_if_empty
      rw [h1]
    rw [e, e]
  | some ls =>
    by_cases h3 : ls.publisher = none ∧ ls.viewers = []
    · have e : remove_stream_if_empty name r =
          { r with streams := aerase name r.streams } := by
        unfold remove_stream_if_empty
        rw [h1]
        exact if_pos h3
      rw [e]
      unfold remove_stream_if_empty
      simp [alookup_aerase_self]
    · have e : remove_stream_if_empty name r = r := by
        unfold remove_stream_if_empty
        rw [h1]
        exact if_neg h3
      rw [e, e]

/-- The call `stream.set_publisher(self)` performed by `PublisherHandler.handle`
on the channel object it obtained from the registry, lifted to the combined
server state.  Only the channel object's publisher field is written; the
router's handler map (and hence every handler's `active` flag) is untouched. -/
def set_publisher_world (h : Nat) (oid : ObjId) (w : World) : World :=
  { w with reg := { w.reg with heap := aupd oid (set_publisher h) w.reg.heap } }

/-- The `finally` block of `PublisherHandler.handle`: `stream.publisher = None`
on the channel object captured at registration (unconditionally), then
`remove_stream_if_empty(self.stream_id)`. -/
def publisher_handle_cleanup (name : Str) (oid : ObjId) (r : StreamManager) :
    StreamManager :=
  remove_stream_if_empty name
    { r with heap := aupd oid (fun ls => { ls with publisher := none }) r.heap }

/-- The registration phase of `ViewerHandler.handle`: look the channel up with
`create=False`; if absent, log and return (the session terminates, the third
component is the — always empty — list of responses sent by this phase); if
present, `stream.add_viewer(self)`.  The second component records the channel
object the viewer registered with (`none` = never registered). -/
def viewer_handle_open (vid : Nat) (name : Str) (r : StreamManager) :
    StreamManager × Option ObjId × List Nat :=
  match get_stream false name r with
  | (r', none) => (r', none, [])
  | (r', some oid) => ({ r' with heap := aupd oid (add_viewer vid) r'.heap }, some oid, [])

/-- `ViewerHandler.send_datagram`: return immediately when `self.active` is
false; otherwise try `http.send_datagram` — when the transport raises (the
session id is in `fails`) the exception is caught and `self.active` is set
false; on success the payload is handed to the transport.  The boolean result
records whether the payload was handed over; no error ever escapes. -/
def send_datagram (fails : List Nat) (v : Nat) (hs : HMap) : HMap × Bool :=
  match alookup v hs with
  | none => (hs, false)
  | some h =>
    if h.active = false then (hs, false)
    else if v ∈ fails then (aupd v (fun h0 => { h0 with active := false }) hs, false)
    else (hs, true)

/-- The `asyncio.gather` over the task list built by `broadcast_datagram`.
Each task runs `send_datagram` for one viewer of the snapshot; tasks touch
only their own viewer's handler, so this sequential linearisation is faithful
to the concurrent execution.  `return_exceptions=True` collects every outcome
independently; the delivery list records which viewers were handed the
payload (verbatim). -/
def broadcastGo (fails : List Nat) (payload : Str) :
    List Nat → HMap → HMap × List (Nat × Str)
  | [], hs => (hs, [])
  | v :: rest, hs =>
    let p := send_datagram fails v hs
    let q := broadcastGo fails payload rest p.1
    (q.1, (if p.2 then [(v, payload)] else []) ++ q.2)

/-- `LiveStream.broadcast_datagram`: if the viewer set is empty return
immediately; otherwise build the task list from the current viewer set (the
snapshot — second component) and gather all sends.  Third component: the
(viewer, payload) deliveries. -/
def broadcast_datagram (fails : List Nat) (payload : Str) (viewers : List Nat)
    (hs : HMap) : HMap × List Nat × List (Nat × Str) :=
  if viewers = [] then (hs, [], [])
  else
    let q := broadcastGo fails payload viewers hs
    (q.1, viewers, q.2)

/-- Method string `CONNECT`. -/
def cCONNECT : Str := ['C', 'O', 'N', 'N', 'E', 'C', 'T']

/-- Secondary-protocol string `webtransport`. -/
def cWEBTRANSPORT : Str :=
  ['w', 'e', 'b', 't', 'r', 'a', 'n', 's', 'p', 'o', 'r', 't']

/-- The route `/publish/`. -/
def pubRoute : Str := ['/', 'p', 'u', 'b', 'l', 'i', 's', 'h', '/']

/-- The route `/watch/`. -/
def watchRoute : Str := ['/', 'w', 'a', 't', 'c', 'h', '/']

/-- A `HeadersReceived` session-open request: the transport-assigned stream id
and the decoded `:method`, `:protocol` and `:path` pseudo-headers (absent
headers decode to the empty string, as in the source). -/
structure Request where
  streamId : Nat
  method : Str
  protocol : Str
  path : Str

/-- Observable actions of `LivestreamProtocol._h3_event_received`:
`sentResponse` is a `_send_response(stream_id, status, end_stream)` call
(for status 200 the source also attaches the draft02 header);
`spawnedTask` is the `asyncio.create_task(handler.handle())` call. -/
inductive SrvEvent : Type
  | sentResponse (streamId status : Nat) (endStream : Bool)
  | spawnedTask (sessionId : Nat)
deriving DecidableEq

/-- The `HeadersReceived` branch of `LivestreamProtocol._h3_event_received`:
reject with 400 unless the method is CONNECT and the protocol designator is
webtransport; route `/publish/...` and `/watch/...` by creating the handler,
storing it in `self.handlers` under the request's stream id, answering 200
and spawning `handler.handle()`; reject any other path with 404.  The
channel name is the raw remainder of the path after the prefix.  The
registry is not an argument: this routine performs no channel or registry
operation. -/
def handle_headers (req : Request) (hs : HMap) : HMap × List SrvEvent :=
  if req.method ≠ cCONNECT ∨ req.protocol ≠ cWEBTRANSPORT then
    (hs, [SrvEvent.sentResponse req.streamId 400 true])
  else if pubRoute.isPrefixOf req.path then
    (aset req.streamId
        { kind := HKind.publisher, stream_id := req.path.drop 9,
          session_id := req.streamId, active := true } hs,
     [SrvEvent.sentResponse req.streamId 200 false, SrvEvent.spawnedTask req.streamId])
  else if watchRoute.isPrefixOf req.path then
    (aset req.streamId
        { kind := HKind.viewer, stream_id := req.path.drop 7,
          session_id := req.streamId, active := true } hs,
     [SrvEvent.sentResponse req.streamId 200 false, SrvEvent.spawnedTask req.streamId])
  else
    (hs, [SrvEvent.sentResponse req.streamId 404 true])

/-- The `DatagramReceived` branch of `LivestreamProtocol._h3_event_received`
composed with `PublisherHandler.h3_event_received`: look the handler up
under the datagram's session identifier; when it is a `PublisherHandler`,
look its channel up with `create=False` and, if it still exists, relay the
payload to the channel's `broadcast_datagram` (if it no longer exists the
datagram is silently dropped); any other handler, or no handler, drops the
datagram with a logged diagnostic (final boolean) and changes no state. -/
def handle_datagram (fails : List Nat) (sid : Nat) (payload : Str) (hs : HMap)
    (r : StreamManager) : HMap × StreamManager × List (Nat × Str) × Bool :=
  match alookup sid hs with
  | some h =>
    if h.kind = HKind.publisher then
      match (alookup h.stream_id r.streams).bind (fun oid => alookup oid r.heap) with
      | some ls =>
        let q := broadcast_datagram fails payload ls.viewers hs
        (q.1, r, q.2.2, false)
      | none => (hs, r, [], false)
    else (hs, r, [], true)
  | none => (hs, r, [], true)

theorem send_datagram_lookup_ne (fails : List Nat) {a u : Nat} (hs : HMap)
    (h : a ≠ u) : alookup u (send_datagram fails a hs).1 = alookup u hs := by
  unfold send_datagram
  cases hla : alookup a hs with
  | none => rfl
  | some hd =>
    by_cases hact : hd.active = false
    · simp [hact]
    · by_cases hf : a ∈ fails
      · simp [hact, hf, alookup_aupd_ne _ _ (Ne.symm h)]
      · simp [hact, hf]

theorem send_datagram_notfails (fails : List Nat) {u : Nat} (hs : HMap)
    (h : u ∉ fails) : (send_datagram fails u hs).1 = hs := by
  unfold send_datagram
  cases hla : alookup u hs with
  | none => rfl
  | some hd =>
    by_cases hact : hd.active = false
    · simp [hact]
    · simp [hact, h]

theorem send_datagram_inactive (fails : List Nat) {u : Nat} (hs : HMap)
    (hd : Handler) (hl : alookup u hs = some hd) (ha : hd.active = false) :
    send_datagram fails u hs = (hs, false) := by
  unfold send_datagram
  rw [hl]
  simp [ha]

theorem broadcastGo_lookup_notmem (fails : List Nat) (payload : Str)
    (l : List Nat) (hs : HMap) {u : Nat} (h : u ∉ l) :
    alookup u (broadcastGo fails payload l hs).1 = alookup u hs := by
  induction l generalizing hs with
  | nil => rfl
  | cons a rest ih =>
    have hau : a ≠ u := fun e => h (e ▸ List.mem_cons_self a rest)
    have hur : u ∉ rest := fun e => h (List.mem_cons_of_mem a e)
    simp only [broadcastGo]
    rw [ih _ hur, send_datagram_lookup_ne fails _ hau]

theorem broadcastGo_lookup_notfails (fails : List Nat) (payload : Str)
    (l : List Nat) (hs : HMap) {u : Nat} (h : u ∉ fails) :
    alookup u (broadcastGo fails payload l hs).1 = alookup u hs := by
  induction l generalizing hs with
  | nil => rfl
  | cons a rest ih =>
    simp only [broadcastGo]
    rw [ih]
    by_cases hau : a = u
    · rw [hau, send_datagram_notfails fails _ h]
    · rw [send_datagram_lookup_ne fails _ hau]

theorem broadcastGo_fail_marks (fails : List Nat) (payload : Str)
    (l : List Nat) (hs : HMap) {v : Nat} (hv : Handler)
    (hnd : l.Nodup) (hm : v ∈ l) (hf : v ∈ fails)
    (hl : alookup v hs = some hv) (ha : hv.active = true) :
    alookup v (broadcastGo fails payload l hs).1 =
      some { hv with active := false } := by
  induction l generalizing hs with
  | nil => cases hm
  | cons a rest ih =>
    simp only [broadcastGo]
    rcases List.mem_cons.mp hm with he | hr
    · subst he
      have hvr : v ∉ rest := (List.nodup_cons.mp hnd).1
      rw [broadcastGo_lookup_notmem fails payload rest _ hvr]
      unfold send_datagram
      rw [hl]
      simp [ha, hf, alookup_aupd_self, hl]
    · have hav : a ≠ v := fun e => (List.nodup_cons.mp hnd).1 (e ▸ hr)
      have hl2 : alookup v (send_datagram fails a hs).1 = some hv := by
        rw [send_datagram_lookup_ne fails _ hav, hl]
      exact ih _ (List.nodup_cons.mp hnd).2 hr hl2

theorem broadcastGo_success_delivers (fails : List Nat) (payload : Str)
    (l : List Nat) (hs : HMap) {w : Nat} (hw : Handler)
    (hm : w ∈ l) (hf : w ∉ fails)
    (hl : alookup w hs = some hw) (ha : hw.active = true) :
    (w, payload) ∈ (broadcastGo fails payload l hs).2 := by
  induction l generalizing hs with
  | nil => cases hm
  | cons a rest ih =>
    simp only [broadcastGo]
    rcases List.mem_cons.mp hm with he | hr
    · subst he
      have : (send_datagram fails w hs).2 = true := by
        unfold send_datagram
        rw [hl]
        simp [ha, hf]
      rw [this]
      exact List.mem_append_left _ (List.mem_singleton.mpr rfl)
    · by_cases haw : a = w
      · subst haw
        have : (send_datagram fails a hs).2 = true := by
          unfold send_datagram
          rw [hl]
          simp [ha, hf]
        rw [this]
        exact List.mem_append_left _ (List.mem_singleton.mpr rfl)
      · have hl2 : alookup w (send_datagram fails a hs).1 = some hw := by
          rw [send_datagram_lookup_ne fails _ haw, hl]
        exact List.mem_append_right _ (ih _ hr hl2)

theorem broadcastGo_deliveries (fails : List Nat) (payload : Str)
    (l : List Nat) (hs : HMap) :
    ∀ d ∈ (broadcastGo fails payload l hs).2, d.1 ∈ l ∧ d.2 = payload := by
  induction l generalizing hs with
  | nil => intro d hd; cases hd
  | cons a rest ih =>
    intro d hd
    simp only [broadcastGo] at hd
    rcases List.mem_append.mp hd with h1 | h2
    · rcases hp : (send_datagram fails a hs).2 with _ | _ <;> rw [hp] at h1
      · cases h1
      · rcases List.mem_singleton.mp h1 with rfl
        exact ⟨List.mem_cons_self a rest, rfl⟩
    · obtain ⟨hd1, hd2⟩ := ih _ d h2
      exact ⟨List.mem_cons_of_mem a hd1, hd2⟩

theorem broadcast_deliveries (fails : List Nat) (payload : Str)
    (viewers : List Nat) (hs : HMap) :
    ∀ d ∈ (broadcast_datagram fails payload viewers hs).2.2,
      d.1 ∈ viewers ∧ d.2 = payload := by
  unfold broadcast_datagram
  by_cases hv : viewers = []
  · simp [hv]
  · simp only [if_neg hv]
    exact broadcastGo_deliveries fails payload viewers hs

theorem isPrefixOf_append (l t : Str) : l.isPrefixOf (l ++ t) = true := by
  induction l with
  | nil => simp [List.isPrefixOf]
  | cons a as ih => simp [List.isPrefixOf, ih]

theorem pubRoute_not_pre_watch (t : Str) :
    pubRoute.isPrefixOf (watchRoute ++ t) = false := rfl

theorem drop_pubRoute (t : Str) : (pubRoute ++ t).drop 9 = t := by
  have h9 : (9 : Nat) = pubRoute.length := rfl
  rw [h9]
  exact List.drop_left pubRoute t

theorem drop_watchRoute (t : Str) : (watchRoute ++ t).drop 7 = t := by
  have h7 : (7 : Nat) = watchRoute.length := rfl
  rw [h7]
  exact List.drop_left watchRoute t

theorem handle_headers_pub (req : Request) (hs : HMap) (name : Str)
    (hm : req.method = cCONNECT) (hp : req.protocol = cWEBTRANSPORT)
    (hpath : req.path = pubRoute ++ name) :
    handle_headers req hs =
      (aset req.streamId
          { kind := HKind.publisher, stream_id := name,
            session_id := req.streamId, active := true } hs,
       [SrvEvent.sentResponse req.streamId 200 false,
        SrvEvent.spawnedTask req.streamId]) := by
  unfold handle_headers
  rw [if_neg (by simp [hm, hp]), hpath, isPrefixOf_append, drop_pubRoute]
  simp

theorem handle_headers_watch (req : Request) (hs : HMap) (name : Str)
    (hm : req.method = cCONNECT) (hp : req.protocol = cWEBTRANSPORT)
    (hpath : req.path = watchRoute ++ name) :
    handle_headers req hs =
      (aset req.streamId
          { kind := HKind.viewer, stream_id := name,
            session_id := req.streamId, active := true } hs,
       [SrvEvent.sentResponse req.streamId 200 false,
        SrvEvent.spawnedTask req.streamId]) := by
  unfold handle_headers
  rw [if_neg (by simp [hm, hp]), hpath, pubRoute_not_pre_watch,
    isPrefixOf_append, drop_watchRoute]
  simp

theorem viewer_handle_open_absent (vid : Nat) (name : Str) (r : StreamManager)
    (h : alookup name r.streams = none) :
    viewer_handle_open vid name r = (r, none, []) := by
  unfold viewer_handle_open get_stream
  rw [h]
  rfl

/-- C1: for every channel, at most one session occupies the publisher slot at
any instant — the slot is an `Option`, and `set_publisher(s)` installs `s` as
the sole publisher, unconditionally replacing any previously installed
publisher (whatever `ls.publisher` held before); the replaced publisher is
neither notified nor terminated by the call: the handler map, and with it
every handler's `active` flag, is left untouched (the source only emits a
log line). -/
theorem C1_single_publisher_slot (h : Nat) (oid : ObjId) (w : World) :
    (∀ ls, alookup oid w.reg.heap = some ls →
        alookup oid (set_publisher_world h oid w).reg.heap =
          some { ls with publisher := some h }) ∧
    (set_publisher_world h oid w).handlers = w.handlers := by
  constructor
  · intro ls hls
    show alookup oid (aupd oid (set_publisher h) w.reg.heap) = _
    rw [alookup_aupd_self, hls]
    rfl
  · rfl

/-- Witness for C1 at a concrete state: channel object 0 of channel `s`
already has publisher session 3; installing session 7 replaces it and the
handler map is unchanged. -/
theorem C1_witness :
    alookup 0 (set_publisher_world 7 0
        { handlers := [(3, { kind := HKind.publisher, stream_id := ['s'],
                             session_id := 3, active := true })],
          reg := { streams := [(['s'], 0)],
                   heap := [(0, { stream_id := ['s'], publisher := some 3,
                                  viewers := [] })],
                   nextId := 1 } }).reg.heap =
      some { stream_id := ['s'], publisher := some 7, viewers := [] } ∧
    (set_publisher_world 7 0
        { handlers := [(3, { kind := HKind.publisher, stream_id := ['s'],
                             session_id := 3, active := true })],
          reg := { streams := [(['s'], 0)],
                   heap := [(0, { stream_id := ['s'], publisher := some 3,
                                  viewers := [] })],
                   nextId := 1 } }).handlers =
      [(3, { kind := HKind.publisher, stream_id := ['s'],
             session_id := 3, active := true })] := by
  have h := C1_single_publisher_slot 7 0
    { handlers := [(3, { kind := HKind.publisher, stream_id := ['s'],
                         session_id := 3, active := true })],
      reg := { streams := [(['s'], 0)],
               heap := [(0, { stream_id := ['s'], publisher := some 3,
                              viewers := [] })],
               nextId := 1 } }
  exact ⟨h.1 { stream_id := ['s'], publisher := some 3, viewers := [] } rfl, h.2⟩

/-- C2: `broadcast_datagram` with an empty viewer set returns immediately as a
no-op (state unchanged, nothing invoked, nothing delivered) and without error
(the function is total); otherwise the send capability is invoked for exactly
the snapshot of viewers registered at the moment of the call, so a viewer not
registered at call time never receives the payload. -/
theorem C2_broadcast_snapshot (fails : List Nat) (payload : Str)
    (viewers : List Nat) (hs : HMap) :
    (viewers = [] → broadcast_datagram fails payload viewers hs = (hs, [], [])) ∧
    (broadcast_datagram fails payload viewers hs).2.1 = viewers ∧
    (∀ w p, w ∉ viewers →
        (w, p) ∉ (broadcast_datagram fails payload viewers hs).2.2) := by
  refine ⟨?_, ?_, ?_⟩
  · intro hv
    unfold broadcast_datagram
    rw [if_pos hv]
  · unfold broadcast_datagram
    by_cases hv : viewers = []
    · rw [if_pos hv, hv]
    · rw [if_neg hv]
  · intro w p hw hmem
    exact hw ((broadcast_deliveries fails payload viewers hs (w, p) hmem).1)

/-- Witness for C2: empty viewer set is a no-op; with viewer set `[1]` the
snapshot is `[1]` and the unregistered viewer 7 receives nothing. -/
theorem C2_witness :
    broadcast_datagram [] ['a'] [] [] = ([], [], []) ∧
    (broadcast_datagram [] ['a'] [1]
        [(1, { kind := HKind.viewer, stream_id := ['s'],
               session_id := 1, active := true })]).2.1 = [1] ∧
    (7, ['a']) ∉ (broadcast_datagram [] ['a'] [1]
        [(1, { kind := HKind.viewer, stream_id := ['s'],
               session_id := 1, active := true })]).2.2 :=
  ⟨(C2_broadcast_snapshot [] ['a'] [] []).1 rfl,
   (C2_broadcast_snapshot [] ['a'] [1] _).2.1,
   (C2_broadcast_snapshot [] ['a'] [1] _).2.2 7 ['a'] (by decide)⟩

/-- C3: when exactly viewer `v`'s transport send raises during a broadcast
that also targets viewer `w` (`w ≠ v`), `v`'s handler is marked inactive and
`v` accepts no further deliveries (a subsequent `send_datagram` to `v` is a
no-op returning no delivery); `w` still receives the payload and `w`'s
handler — like that of every session other than `v` — is unchanged; no error
is surfaced to the broadcaster or to other recipients (`broadcast_datagram`
is total and has no error component). -/
theorem C3_failure_isolation (fails : List Nat) (payload : Str)
    (viewers : List Nat) (hs : HMap) (v w : Nat) (hv hw : Handler)
    (hnd : viewers.Nodup) (hvm : v ∈ viewers) (hwm : w ∈ viewers) (hne : w ≠ v)
    (hfl : fails = [v])
    (hlv : alookup v hs = some hv) (hav : hv.active = true)
    (hlw : alookup w hs = some hw) (haw : hw.active = true) :
    alookup v (broadcast_datagram fails payload viewers hs).1 =
        some { hv with active := false } ∧
    (w, payload) ∈ (broadcast_datagram fails payload viewers hs).2.2 ∧
    alookup w (broadcast_datagram fails payload viewers hs).1 = some hw ∧
    (∀ u, u ≠ v →
        alookup u (broadcast_datagram fails payload viewers hs).1 = alookup u hs) ∧
    (∀ fails2, send_datagram fails2 v (broadcast_datagram fails payload viewers hs).1 =
        ((broadcast_datagram fails payload viewers hs).1, false)) := by
  have hvne : viewers ≠ [] := List.ne_nil_of_mem hvm
  have hbe : broadcast_datagram fails payload viewers hs =
      ((broadcastGo fails payload viewers hs).1, viewers,
       (broadcastGo fails payload viewers hs).2) := by
    unfold broadcast_datagram
    rw [if_neg hvne]
  have hwf : w ∉ fails := by
    rw [hfl]
    simp [hne]
  have hvf : v ∈ fails := by
    rw [hfl]
    exact List.mem_singleton.mpr rfl
  have h1 : alookup v (broadcast_datagram fails payload viewers hs).1 =
      some { hv with active := false } := by
    rw [hbe]
    exact broadcastGo_fail_marks fails payload viewers hs hv hnd hvm hvf hlv hav
  refine ⟨h1, ?_, ?_, ?_, ?_⟩
  · rw [hbe]
    exact broadcastGo_success_delivers fails payload viewers hs hw hwm hwf hlw haw
  · rw [hbe]
    show alookup w (broadcastGo fails payload viewers hs).1 = some hw
    rw [broadcastGo_lookup_notfails fails payload viewers hs hwf, hlw]
  · intro u hu
    rw [hbe]
    show alookup u (broadcastGo fails payload viewers hs).1 = alookup u hs
    have huf : u ∉ fails := by
      rw [hfl]
      simp [hu]
    exact broadcastGo_lookup_notfails fails payload viewers hs huf
  · intro fails2
    exact send_datagram_inactive fails2 _ { hv with active := false } h1 rfl

/-- Witness for C3: viewers 1 and 2 both active, 1's transport send raises;
after the broadcast 1 is inactive, 2 received the payload and is unchanged,
the unrelated session 5 is unchanged, and a further send to 1 is a no-op. -/
theorem C3_witness :
    alookup 1 (broadcast_datagram [1] ['d'] [1, 2]
        [(1, { kind := HKind.viewer, stream_id := ['s'], session_id := 1, active := true }),
         (2, { kind := HKind.viewer, stream_id := ['s'], session_id := 2, active := true })]).1 =
      some { kind := HKind.viewer, stream_id := ['s'], session_id := 1, active := false } ∧
    (2, ['d']) ∈ (broadcast_datagram [1] ['d'] [1, 2]
        [(1, { kind := HKind.viewer, stream_id := ['s'], session_id := 1, active := true }),
         (2, { kind := HKind.viewer, stream_id := ['s'], session_id := 2, active := true })]).2.2 ∧
    alookup 5 (broadcast_datagram [1] ['d'] [1, 2]
        [(1, { kind := HKind.viewer, stream_id := ['s'], session_id := 1, active := true }),
         (2, { kind := HKind.viewer, stream_id := ['s'], session_id := 2, active := true })]).1 =
      alookup 5
        [(1, { kind := HKind.viewer, stream_id := ['s'], session_id := 1, active := true }),
         (2, { kind := HKind.viewer, stream_id := ['s'], session_id := 2, active := true })] ∧
    send_datagram [] 1 (broadcast_datagram [1] ['d'] [1, 2]
        [(1, { kind := HKind.viewer, stream_id := ['s'], session_id := 1, active := true }),
         (2, { kind := HKind.viewer, stream_id := ['s'], session_id := 2, active := true })]).1 =
      ((broadcast_datagram [1] ['d'] [1, 2]
        [(1, { kind := HKind.viewer, stream_id := ['s'], session_id := 1, active := true }),
         (2, { kind := HKind.viewer, stream_id := ['s'], session_id := 2, active := true })]).1, false) := by
  have h := C3_failure_isolation [1] ['d'] [1, 2]
    [(1, { kind := HKind.viewer, stream_id := ['s'], session_id := 1, active := true }),
     (2, { kind := HKind.viewer, stream_id := ['s'], session_id := 2, active := true })]
    1 2
    { kind := HKind.viewer, stream_id := ['s'], session_id := 1, active := true }
    { kind := HKind.viewer, stream_id := ['s'], session_id := 2, active := true }
    (by decide) (by decide) (by decide) (by decide) rfl rfl rfl rfl rfl
  exact ⟨h.1, h.2.1, h.2.2.2.1 5 (by decide), h.2.2.2.2 []⟩

/-- Concrete registry for C4: channel `s` is object 0, its publisher slot
holds the *replacing* publisher session 2, and viewer 5 keeps the channel
non-empty.  The original publisher, session 1, registered with object 0 and
is now closing. -/
def smC4 : StreamManager :=
  { streams := [(['s'], 0)],
    heap := [(0, { stream_id := ['s'], publisher := some 2, viewers := [5] })],
    nextId := 1 }

/-- C4 counterexample: the claim says a publisher slot occupied by a
different, replacing publisher is left unchanged by the closing session's
cleanup.  In the code the `finally` block of `PublisherHandler.handle` runs
`stream.publisher = None` unconditionally — it never compares the slot with
`self` (the cleanup does not even depend on the closing session's identity).
Here session 1 closes while the slot holds the replacing session 2, and
the slot is cleared rather than left unchanged. -/
theorem C4_counterexample :
    (alookup 0 smC4.heap).map LiveStream.publisher = some (some 2) ∧
    (alookup 0 (publisher_handle_cleanup ['s'] 0 smC4).heap).map
        LiveStream.publisher = some none := by
  constructor <;> rfl

/-- C4 amended: when a publisher session transitions to Closed, the publisher
slot of the channel object it registered with is cleared *unconditionally* —
even when a different, replacing publisher occupies it — after which
`pruneIfEmpty` is requested on the channel (the definition of
`publisher_handle_cleanup` is exactly `remove_stream_if_empty` applied to
the slot-cleared state); the cleanup is idempotent under repeated close
signals. -/
theorem C4_cleanup_unconditional (name : Str) (oid : ObjId) (r : StreamManager) :
    (∀ ls, alookup oid r.heap = some ls →
        alookup oid (publisher_handle_cleanup name oid r).heap =
          some { ls with publisher := none }) ∧
    publisher_handle_cleanup name oid (publisher_handle_cleanup name oid r) =
      publisher_handle_cleanup name oid r := by
  constructor
  · intro ls hls
    unfold publisher_handle_cleanup
    rw [remove_stream_if_empty_heap]
    show alookup oid (aupd oid _ r.heap) = _
    rw [alookup_aupd_self, hls]
    rfl
  · have key : ∀ s : StreamManager,
        aupd oid (fun ls => { ls with publisher := none }) s.heap = s.heap →
        publisher_handle_cleanup name oid s = remove_stream_if_empty name s := by
      intro s hsfix
      unfold publisher_handle_cleanup
      rw [hsfix]
    have hfixA : aupd oid (fun ls => { ls with publisher := none })
        (publisher_handle_cleanup name oid r).heap =
        (publisher_handle_cleanup name oid r).heap := by
      unfold publisher_handle_cleanup
      rw [remove_stream_if_empty_heap]
      show aupd oid _ (aupd oid _ r.heap) = aupd oid _ r.heap
      rw [aupd_aupd]
    calc publisher_handle_cleanup name oid (publisher_handle_cleanup name oid r)
        = remove_stream_if_empty name (publisher_handle_cleanup name oid r) :=
          key _ hfixA
      _ = publisher_handle_cleanup name oid r := by
          unfold publisher_handle_cleanup
          exact remove_stream_if_empty_idem name _

/-- Witness for C4 amended, on the same concrete state as the counterexample:
the slot is cleared and a second close signal changes nothing further. -/
theorem C4_witness :
    alookup 0 (publisher_handle_cleanup ['s'] 0 smC4).heap =
      some { stream_id := ['s'], publisher := none, viewers := [5] } ∧
    publisher_handle_cleanup ['s'] 0 (publisher_handle_cleanup ['s'] 0 smC4) =
      publisher_handle_cleanup ['s'] 0 smC4 := by
  have h := C4_cleanup_unconditional ['s'] 0 smC4
  exact ⟨h.1 { stream_id := ['s'], publisher := some 2, viewers := [5] } rfl, h.2⟩

/-- C5: opening a viewer session for a channel name absent from the registry
looks the channel up with `create=False`, creates no registry entry, never
calls `add_viewer` (the viewer registers with no channel object, and neither
the streams map nor the heap changes), sends nothing, and the session
terminates (the handler returns before its keep-alive loop). -/
theorem C5_viewer_absent_channel (vid : Nat) (name : Str) (r : StreamManager)
    (h : alookup name r.streams = none) :
    viewer_handle_open vid name r = (r, none, []) :=
  viewer_handle_open_absent vid name r h

/-- Witness for C5: an empty registry rejects viewer 9 on channel `x`
without creating anything. -/
theorem C5_witness :
    viewer_handle_open 9 ['x'] { streams := [], heap := [], nextId := 0 } =
      ({ streams := [], heap := [], nextId := 0 }, none, []) :=
  C5_viewer_absent_channel 9 ['x'] _ rfl

/-- C6: `remove_stream_if_empty(name)` removes the channel from the registry
iff it exists and currently has no publisher and no viewers (and then touches
nothing else — the heap of channel objects is preserved); it is a no-op when
the name is absent or when the channel has a publisher or viewers; and it is
idempotent. -/
theorem C6_prune_iff_empty (name : Str) (r : StreamManager) :
    (alookup name r.streams = none → remove_stream_if_empty name r = r) ∧
    (∀ oid ls, alookup name r.streams = some oid → alookup oid r.heap = some ls →
        ((ls.publisher = none ∧ ls.viewers = []) →
            alookup name (remove_stream_if_empty name r).streams = none ∧
            (remove_stream_if_empty name r).heap = r.heap) ∧
        (¬(ls.publisher = none ∧ ls.viewers = []) →
            remove_stream_if_empty name r = r)) ∧
    remove_stream_if_empty name (remove_stream_if_empty name r) =
      remove_stream_if_empty name r := by
  refine ⟨?_, ?_, remove_stream_if_empty_idem name r⟩
  · intro h
    unfold remove_stream_if_empty
    rw [h]
    rfl
  · intro oid ls hoid hls
    have hb : (alookup name r.streams).bind (fun oid => alookup oid r.heap) =
        some ls := by
      rw [hoid]
      exact hls
    constructor
    · intro hcond
      have e : remove_stream_if_empty name r =
          { r with streams := aerase name r.streams } := by
        unfold remove_stream_if_empty
        rw [hb]
        exact if_pos hcond
      rw [e]
      exact ⟨alookup_aerase_self name r.streams, rfl⟩
    · intro hcond
      unfold remove_stream_if_empty
      rw [hb]
      exact if_neg hcond

/-- Witness for C6: pruning an absent name is a no-op; an existing empty
channel is removed (heap preserved); a channel that still has a publisher is
untouched; and pruning twice equals pruning once. -/
theorem C6_witness :
    remove_stream_if_empty ['z']
        { streams := [(['a'], 0)],
          heap := [(0, { stream_id := ['a'], publisher := none, viewers := [] })],
          nextId := 1 } =
      { streams := [(['a'], 0)],
        heap := [(0, { stream_id := ['a'], publisher := none, viewers := [] })],
        nextId := 1 } ∧
    (alookup ['a'] (remove_stream_if_empty ['a']
        { streams := [(['a'], 0)],
          heap := [(0, { stream_id := ['a'], publisher := none, viewers := [] })],
          nextId := 1 }).streams = none ∧
     (remove_stream_if_empty ['a']
        { streams := [(['a'], 0)],
          heap := [(0, { stream_id := ['a'], publisher := none, viewers := [] })],
          nextId := 1 }).heap =
       [(0, { stream_id := ['a'], publisher := none, viewers := [] })]) ∧
    remove_stream_if_empty ['b']
        { streams := [(['b'], 0)],
          heap := [(0, { stream_id := ['b'], publisher := some 1, viewers := [] })],
          nextId := 1 } =
      { streams := [(['b'], 0)],
        heap := [(0, { stream_id := ['b'], publisher := some 1, viewers := [] })],
        nextId := 1 } ∧
    remove_stream_if_empty ['a'] (remove_stream_if_empty ['a']
        { streams := [(['a'], 0)],
          heap := [(0, { stream_id := ['a'], publisher := none, viewers := [] })],
          nextId := 1 }) =
      remove_stream_if_empty ['a']
        { streams := [(['a'], 0)],
          heap := [(0, { stream_id := ['a'], publisher := none, viewers := [] })],
          nextId := 1 } := by
  have ha := C6_prune_iff_empty ['a']
    { streams := [(['a'], 0)],
      heap := [(0, { stream_id := ['a'], publisher := none, viewers := [] })],
      nextId := 1 }
  have hz := C6_prune_iff_empty ['z']
    { streams := [(['a'], 0)],
      heap := [(0, { stream_id := ['a'], publisher := none, viewers := [] })],
      nextId := 1 }
  have hb := C6_prune_iff_empty ['b']
    { streams := [(['b'], 0)],
      heap := [(0, { stream_id := ['b'], publisher := some 1, viewers := [] })],
      nextId := 1 }
  refine ⟨hz.1 rfl, ?_, ?_, ha.2.2⟩
  · exact (ha.2.1 0 { stream_id := ['a'], publisher := none, viewers := [] }
      rfl rfl).1 ⟨rfl, rfl⟩
  · exact (hb.2.1 0 { stream_id := ['b'], publisher := some 1, viewers := [] }
      rfl rfl).2 (by simp)

/-- C7: a session-open request whose method is not `CONNECT` or whose
secondary protocol is not `webtransport` is rejected with status 400
(stream ended), and a valid CONNECT request whose path matches neither
`/publish/` nor `/watch/` is rejected with status 404; in both cases the
handler map is unchanged (no session object is created or mapped) and no
task is spawned — and since `handle_headers` does not even take the
registry, no channel or registry state is created. -/
theorem C7_invalid_requests_rejected (req : Request) (hs : HMap) :
    ((req.method ≠ cCONNECT ∨ req.protocol ≠ cWEBTRANSPORT) →
        handle_headers req hs =
          (hs, [SrvEvent.sentResponse req.streamId 400 true])) ∧
    (req.method = cCONNECT → req.protocol = cWEBTRANSPORT →
     pubRoute.isPrefixOf req.path = false →
     watchRoute.isPrefixOf req.path = false →
        handle_headers req hs =
          (hs, [SrvEvent.sentResponse req.streamId 404 true])) := by
  constructor
  · intro h
    unfold handle_headers
    rw [if_pos h]
  · intro hm hp h1 h2
    unfold handle_headers
    rw [if_neg (by simp [hm, hp]), h1, h2]
    simp

/-- Witness for C7: a GET request is rejected 400; a CONNECT+webtransport
request for `/other` is rejected 404; nothing is mapped in either case. -/
theorem C7_witness :
    handle_headers
        { streamId := 3, method := ['G', 'E', 'T'], protocol := cWEBTRANSPORT,
          path := ['/', 'x'] } [] =
      ([], [SrvEvent.sentResponse 3 400 true]) ∧
    handle_headers
        { streamId := 4, method := cCONNECT, protocol := cWEBTRANSPORT,
          path := ['/', 'o', 't', 'h', 'e', 'r'] } [] =
      ([], [SrvEvent.sentResponse 4 404 true]) :=
  ⟨(C7_invalid_requests_rejected _ []).1 (Or.inl (by decide)),
   (C7_invalid_requests_rejected _ []).2 rfl rfl rfl rfl⟩

/-- C8: a valid session-open request with path `/publish/{channel}` or
`/watch/{channel}` creates exactly one publisher (resp. viewer) handler
whose channel name is the entire remainder of the path after the prefix —
an arbitrary, possibly empty, character sequence (`name` is universally
quantified and unvalidated) — maps it in the handler dict under the
transport-assigned stream id of the request, answers 200 and spawns the
handler task. -/
theorem C8_route_paths (req : Request) (hs : HMap) (name : Str)
    (hm : req.method = cCONNECT) (hp : req.protocol = cWEBTRANSPORT) :
    (req.path = pubRoute ++ name →
        handle_headers req hs =
          (aset req.streamId
              { kind := HKind.publisher, stream_id := name,
                session_id := req.streamId, active := true } hs,
           [SrvEvent.sentResponse req.streamId 200 false,
            SrvEvent.spawnedTask req.streamId])) ∧
    (req.path = watchRoute ++ name →
        handle_headers req hs =
          (aset req.streamId
              { kind := HKind.viewer, stream_id := name,
                session_id := req.streamId, active := true } hs,
           [SrvEvent.sentResponse req.streamId 200 false,
            SrvEvent.spawnedTask req.streamId])) :=
  ⟨fun hpath => handle_headers_pub req hs name hm hp hpath,
   fun hpath => handle_headers_watch req hs name hm hp hpath⟩

/-- Witness for C8: `/publish/abc` creates a publisher handler for channel
`abc` mapped under stream id 5, and `/watch/` (empty remainder) creates a
viewer handler for the empty channel name mapped under stream id 6. -/
theorem C8_witness :
    handle_headers
        { streamId := 5, method := cCONNECT, protocol := cWEBTRANSPORT,
          path := ['/', 'p', 'u', 'b', 'l', 'i', 's', 'h', '/', 'a', 'b', 'c'] } [] =
      ([(5, { kind := HKind.publisher, stream_id := ['a', 'b', 'c'],
              session_id := 5, active := true })],
       [SrvEvent.sentResponse 5 200 false, SrvEvent.spawnedTask 5]) ∧
    handle_headers
        { streamId := 6, method := cCONNECT, protocol := cWEBTRANSPORT,
          path := ['/', 'w', 'a', 't', 'c', 'h', '/'] } [] =
      ([(6, { kind := HKind.viewer, stream_id := [],
              session_id := 6, active := true })],
       [SrvEvent.sentResponse 6 200 false, SrvEvent.spawnedTask 6]) :=
  ⟨(C8_route_paths _ [] ['a', 'b', 'c'] rfl rfl).1 rfl,
   (C8_route_paths _ [] [] rfl rfl).2 rfl⟩

/-- C9: on an inbound datagram event for session identifier `sid`: when the
mapped handler is a publisher, the payload is relayed verbatim to its
channel's `broadcast_datagram` — the resulting state is exactly the
broadcast state, nothing is parsed, reassembled or buffered, and every
delivered pair carries the unmodified payload; when the publisher's channel
no longer exists in the registry the datagram is silently dropped (no state
change, no diagnostic); when the mapped handler is not a publisher, or no
handler is mapped, the datagram is dropped with a diagnostic and no state
changes. -/
theorem C9_datagram_dispatch (fails : List Nat) (sid : Nat) (payload : Str)
    (hs : HMap) (r : StreamManager) :
    (∀ h ls, alookup sid hs = some h → h.kind = HKind.publisher →
        (alookup h.stream_id r.streams).bind (fun oid => alookup oid r.heap) =
          some ls →
        handle_datagram fails sid payload hs r =
          ((broadcast_datagram fails payload ls.viewers hs).1, r,
           (broadcast_datagram fails payload ls.viewers hs).2.2, false) ∧
        ∀ d ∈ (broadcast_datagram fails payload ls.viewers hs).2.2,
          d.2 = payload) ∧
    (∀ h, alookup sid hs = some h → h.kind = HKind.publisher →
        (alookup h.stream_id r.streams).bind (fun oid => alookup oid r.heap) =
          none →
        handle_datagram fails sid payload hs r = (hs, r, [], false)) ∧
    (∀ h, alookup sid hs = some h → h.kind ≠ HKind.publisher →
        handle_datagram fails sid payload hs r = (hs, r, [], true)) ∧
    (alookup sid hs = none →
        handle_datagram fails sid payload hs r = (hs, r, [], true)) := by
  refine ⟨?_, ?_, ?_, ?_⟩
  · intro h ls hl hk hch
    constructor
    · unfold handle_datagram
      rw [hl]
      simp only [hk, if_pos]
      rw [hch]
    · intro d hd
      exact (broadcast_deliveries fails payload ls.viewers hs d hd).2
  · intro h hl hk hch
    unfold handle_datagram
    rw [hl]
    simp only [hk, if_pos]
    rw [hch]
  · intro h hl hk
    unfold handle_datagram
    rw [hl]
    simp [hk]
  · intro hl
    unfold handle_datagram
    rw [hl]

/-- Witness for C9 at a concrete world: publisher session 1 on channel `s`
with viewer 2 relays datagram `q` (delivered verbatim to viewer 2); the
same publisher with its channel pruned drops silently; a datagram for the
viewer session 2, or for the unmapped session 9, is dropped with a
diagnostic. -/
theorem C9_witness :
    (handle_datagram [] 1 ['q']
        [(1, { kind := HKind.publisher, stream_id := ['s'], session_id := 1, active := true }),
         (2, { kind := HKind.viewer, stream_id := ['s'], session_id := 2, active := true })]
        { streams := [(['s'], 0)],
          heap := [(0, { stream_id := ['s'], publisher := some 1, viewers := [2] })],
          nextId := 1 } =
      ([(1, { kind := HKind.publisher, stream_id := ['s'], session_id := 1, active := true }),
        (2, { kind := HKind.viewer, stream_id := ['s'], session_id := 2, active := true })],
       { streams := [(['s'], 0)],
         heap := [(0, { stream_id := ['s'], publisher := some 1, viewers := [2] })],
         nextId := 1 }, [(2, ['q'])], false) ∧
     (2, ['q']).2 = ['q']) ∧
    handle_datagram [] 1 ['q']
        [(1, { kind := HKind.publisher, stream_id := ['s'], session_id := 1, active := true })]
        { streams := [], heap := [], nextId := 0 } =
      ([(1, { kind := HKind.publisher, stream_id := ['s'], session_id := 1, active := true })],
       { streams := [], heap := [], nextId := 0 }, [], false) ∧
    handle_datagram [] 2 ['q']
        [(2, { kind := HKind.viewer, stream_id := ['s'], session_id := 2, active := true })]
        { streams := [], heap := [], nextId := 0 } =
      ([(2, { kind := HKind.viewer, stream_id := ['s'], session_id := 2, active := true })],
       { streams := [], heap := [], nextId := 0 }, [], true) ∧
    handle_datagram [] 9 ['q'] [] { streams := [], heap := [], nextId := 0 } =
      ([], { streams := [], heap := [], nextId := 0 }, [], true) := by
  have h1 := C9_datagram_dispatch [] 1 ['q']
    [(1, { kind := HKind.publisher, stream_id := ['s'], session_id := 1, active := true }),
     (2, { kind := HKind.viewer, stream_id := ['s'], session_id := 2, active := true })]
    { streams := [(['s'], 0)],
      heap := [(0, { stream_id := ['s'], publisher := some 1, viewers := [2] })],
      nextId := 1 }
  have h2 := C9_datagram_dispatch [] 1 ['q']
    [(1, { kind := HKind.publisher, stream_id := ['s'], session_id := 1, active := true })]
    { streams := [], heap := [], nextId := 0 }
  have h3 := C9_datagram_dispatch [] 2 ['q']
    [(2, { kind := HKind.viewer, stream_id := ['s'], session_id := 2, active := true })]
    { streams := [], heap := [], nextId := 0 }
  have h4 := C9_datagram_dispatch [] 9 ['q'] []
    { streams := [], heap := [], nextId := 0 }
  have ha := h1.1
    { kind := HKind.publisher, stream_id := ['s'], session_id := 1, active := true }
    { stream_id := ['s'], publisher := some 1, viewers := [2] } rfl rfl rfl
  refine ⟨⟨?_, ha.2 (2, ['q']) (by decide)⟩, ?_, ?_, ?_⟩
  · rw [ha.1]
    rfl
  · exact h2.2.1
      { kind := HKind.publisher, stream_id := ['s'], session_id := 1, active := true }
      rfl rfl rfl
  · exact h3.2.2.1
      { kind := HKind.viewer, stream_id := ['s'], session_id := 2, active := true }
      rfl (by decide)
  · exact h4.2.2.2 rfl

/-- C10: the router accepts every well-formed `/watch/{channel}` open request
— answers 200 and maps a viewer handler — without consulting the registry
(`handle_headers` does not take it as an argument), so a viewer naming an
absent channel is accepted at the transport level first; the channel check
happens only inside the spawned handler task, which for an absent channel
terminates without registering and without sending any status (its event
list is empty) — no error status is ever sent for the missing channel. -/
theorem C10_watch_accept_before_check (req : Request) (hs : HMap)
    (r : StreamManager) (vid : Nat) (name : Str)
    (hm : req.method = cCONNECT) (hp : req.protocol = cWEBTRANSPORT)
    (hpath : req.path = watchRoute ++ name)
    (habs : alookup name r.streams = none) :
    handle_headers req hs =
      (aset req.streamId
          { kind := HKind.viewer, stream_id := name,
            session_id := req.streamId, active := true } hs,
       [SrvEvent.sentResponse req.streamId 200 false,
        SrvEvent.spawnedTask req.streamId]) ∧
    viewer_handle_open vid name r = (r, none, []) :=
  ⟨handle_headers_watch req hs name hm hp hpath,
   viewer_handle_open_absent vid name r habs⟩

/-- Witness for C10: `/watch/s` against an empty registry: 200 is sent and a
viewer handler mapped, then the handler terminates silently. -/
theorem C10_witness :
    handle_headers
        { streamId := 8, method := cCONNECT, protocol := cWEBTRANSPORT,
          path := ['/', 'w', 'a', 't', 'c', 'h', '/', 's'] } [] =
      ([(8, { kind := HKind.viewer, stream_id := ['s'],
              session_id := 8, active := true })],
       [SrvEvent.sentResponse 8 200 false, SrvEvent.spawnedTask 8]) ∧
    viewer_handle_open 8 ['s'] { streams := [], heap := [], nextId := 0 } =
      ({ streams := [], heap := [], nextId := 0 }, none, []) :=
  C10_watch_accept_before_check
    { streamId := 8, method := cCONNECT, protocol := cWEBTRANSPORT,
      path := ['/', 'w', 'a', 't', 'c', 'h', '/', 's'] } []
    { streams := [], heap := [], nextId := 0 } 8 ['s'] rfl rfl rfl rfl
